import Mathlib

/-!
# MPU6000 driver (src/apps/drivers/mpu6000/mpu6000.cpp)

A shallow embedding of the driver: the private members of class `MPU6000`
become a record, every member function becomes a pure function from the
record (and the values the outside world supplies to that call) to an
`Outcome`: the result code, the record afterwards and the calls made to the
external collaborators, in order.

Conventions.
* `uint8_t`, `unsigned`, `uint64_t` values are `Nat`; truncation to a byte is
  written `% 256` where the source stores into a `uint8_t`.
* `float` members are rationals. The one arithmetic operation the driver
  performs on them, `raw * range_scale`, is the rational product. The source
  multiplies in `float`; the two agree where the range scale is 1, the only
  value the source assigns to it (a 16-bit word and its product with 1.0f are
  exact in `float`). What is proved about the value of a report component is
  proved for records whose range scales are 1.
* Diagnostics (`log`, `debug`, `printf`) and the perf counter are not part of
  the model.
-/

/-! ## Constants of the source file -/

def DIR_READ : Nat := 0x80
def DIR_WRITE : Nat := 0x00

def MPUREG_SMPLRT_DIV : Nat := 0x19
def MPUREG_CONFIG : Nat := 0x1A
def MPUREG_GYRO_CONFIG : Nat := 0x1B
def MPUREG_ACCEL_CONFIG : Nat := 0x1C
def MPUREG_INT_PIN_CFG : Nat := 0x37
def MPUREG_INT_ENABLE : Nat := 0x38
def MPUREG_INT_STATUS : Nat := 0x3A
def MPUREG_USER_CTRL : Nat := 0x6A
def MPUREG_PWR_MGMT_1 : Nat := 0x6B
def MPUREG_PRODUCT_ID : Nat := 0x0C

def BIT_H_RESET : Nat := 0x80
def MPU_CLK_SEL_PLLGYROZ : Nat := 0x03
def BITS_FS_2000DPS : Nat := 0x18
def BITS_DLPF_CFG_98HZ : Nat := 0x02
def BIT_INT_ANYRD_2CLEAR : Nat := 0x10
def BIT_RAW_RDY_EN : Nat := 0x01
def BIT_I2C_IF_DIS : Nat := 0x10

def MPU6000ES_REV_C4 : Nat := 0x14
def MPU6000ES_REV_C5 : Nat := 0x15
def MPU6000ES_REV_D6 : Nat := 0x16
def MPU6000ES_REV_D7 : Nat := 0x17
def MPU6000ES_REV_D8 : Nat := 0x18
def MPU6000_REV_C4 : Nat := 0x54
def MPU6000_REV_C5 : Nat := 0x55
def MPU6000_REV_D6 : Nat := 0x56
def MPU6000_REV_D7 : Nat := 0x57
def MPU6000_REV_D8 : Nat := 0x58
def MPU6000_REV_D9 : Nat := 0x59
def MPU6000_REV_D10 : Nat := 0x5A

/-! ## Result codes (errno.h) -/

def OK : Int := 0

namespace errno

def EIO : Int := 5
def EINVAL : Int := 22
def ENOSPC : Int := 28

end errno

/-! ## Data model -/

/-- Record published on the accelerometer topic (the members the source
uses: `timestamp`, `x`, `y`, `z`). -/
structure accel_report where
  timestamp : Nat
  x : ℚ
  y : ℚ
  z : ℚ
deriving DecidableEq

/-- Record published on the gyroscope topic. -/
structure gyro_report where
  timestamp : Nat
  x : ℚ
  y : ℚ
  z : ℚ
deriving DecidableEq

/-- Per-axis calibration of the accelerometer. -/
structure accel_scale where
  x_offset : ℚ
  x_scale : ℚ
  y_offset : ℚ
  y_scale : ℚ
  z_offset : ℚ
  z_scale : ℚ
deriving DecidableEq

/-- Per-axis calibration of the gyroscope. -/
structure gyro_scale where
  x_offset : ℚ
  x_scale : ℚ
  y_offset : ℚ
  y_scale : ℚ
  z_offset : ℚ
  z_scale : ℚ
deriving DecidableEq

/-- The member of `struct hrt_call` the driver itself assigns. -/
structure hrt_call where
  period : Nat
deriving DecidableEq

/-- The two uORB topics the driver advertises. -/
inductive Topic where
  | sensor_accel
  | sensor_gyro
deriving DecidableEq

/-- The two device nodes backed by the one driver instance. -/
inductive Endpoint where
  | accel
  | gyro
deriving DecidableEq

/-- Private members of class `MPU6000`. -/
structure MPU6000 where
  _product : Nat
  _call : hrt_call
  _call_interval : Nat
  _accel_report : accel_report
  _accel_scale : accel_scale
  _accel_range_scale : ℚ
  _accel_topic : Int
  _gyro_report : gyro_report
  _gyro_scale : gyro_scale
  _gyro_range_scale : ℚ
  _gyro_topic : Int
  _reads : Nat
deriving DecidableEq

/-- A call made to an external collaborator. In `transfer send recv len`,
`send` is the buffer handed to the bus (`none` marks a byte the source never
initialised) and `recv` tells whether a receive buffer was passed
(`false` for `nullptr`). -/
inductive Event where
  | transfer (send : List (Option Nat)) (recv : Bool) (len : Nat)
  | hrt_cancel
  | hrt_call_every (delay : Nat) (interval : Nat)
  | orb_advertise (topic : Topic)
  | orb_publish_accel (handle : Int) (report : accel_report)
  | orb_publish_gyro (handle : Int) (report : gyro_report)
  | poll_notify (node : Endpoint)
  | up_udelay (usec : Nat)
  | usleep (usec : Nat)
deriving DecidableEq

/-- What a member function leaves behind: its return value, the driver
record and the external calls it made, oldest first. -/
structure Outcome (α : Type) where
  ret : α
  dev : MPU6000
  events : List Event

/-- What `read` and `gyro_read` leave behind. `buffer` is the caller's
buffer seen as a record slot: `some r` once record `r` has been copied to its
start, otherwise whatever the caller passed in. -/
structure ReadOutcome (R : Type) where
  ret : Int
  buffer : Option R
  dev : MPU6000
  events : List Event

/-- Request codes of the `ioctl` switches. Their numbers are defined in
drv_accel.h and drv_gyro.h, which are not among the sources; the labels of
the two switches are kept symbolic and `other` stands for every further
request. -/
inductive Cmd where
  | ACCELIOCSPOLLRATE
  | ACCELIOCSQUEUEDEPTH
  | ACCELIOCSLOWPASS
  | ACCELIORANGE
  | ACCELIOCSSAMPLERATE
  | ACCELIOCSREPORTFORMAT
  | GYROIOCSPOLLRATE
  | GYROIOCSQUEUEDEPTH
  | GYROIOCSLOWPASS
  | GYROIOCSSCALE
  | GYROIOCSSAMPLERATE
  | GYROIOCSREPORTFORMAT
  | other (request : Int)
deriving DecidableEq

/-- Declarations the driver takes from files that are not among the sources:
the sizes of the two report records and the poll-rate constants (drv_accel.h,
drv_gyro.h), and the result of the base-class `SPI::ioctl`, which cannot
reach the private members of the driver. The two poll-rate constants and 0
are the labels of one `switch`, hence pairwise distinct. -/
structure Platform where
  sizeof_accel_report : Nat
  sizeof_gyro_report : Nat
  ACC_POLLRATE_MANUAL : Nat
  ACC_POLLRATE_EXTERNAL : Nat
  SPI_ioctl : Cmd → Nat → Int
  manual_ne_external : ACC_POLLRATE_MANUAL ≠ ACC_POLLRATE_EXTERNAL
  manual_ne_zero : ACC_POLLRATE_MANUAL ≠ 0
  external_ne_zero : ACC_POLLRATE_EXTERNAL ≠ 0

/-- The bus transport `SPI::transfer`, external to this file: for the buffer
sent and the length, the status and the bytes found in the receive buffer
when the call returns. -/
abbrev Bus := List (Option Nat) → Nat → Int × List Nat

namespace MPU6000

/-- Constructor `MPU6000::MPU6000`. The member `_call` has no initialiser;
its content at construction is the argument. -/
def ctor (call0 : hrt_call) : MPU6000 :=
  { _product := 0
    _call := call0
    _call_interval := 0
    _accel_report := ⟨0, 0, 0, 0⟩
    _accel_scale := ⟨0, 1, 0, 1, 0, 1⟩
    _accel_range_scale := 1
    _accel_topic := -1
    _gyro_report := ⟨0, 0, 0, 0⟩
    _gyro_scale := ⟨0, 1, 0, 1, 0, 1⟩
    _gyro_range_scale := 1
    _gyro_topic := -1
    _reads := 0 }

/-- Member `read_reg`: a two-byte exchange whose second received byte is the
register value. -/
def read_reg (bus : Bus) (reg : Nat) : Nat × List Event :=
  let cmd : List (Option Nat) := [some ((reg ||| DIR_READ) % 256), none]
  let rx := (bus cmd 2).2
  (rx.getD 1 0 % 256, [Event.transfer cmd true 2])

/-- Member `write_reg`: a two-byte exchange without receive buffer; the
status of the exchange is dropped. -/
def write_reg (reg : Nat) (value : Nat) : List Event :=
  [Event.transfer [some ((reg ||| DIR_WRITE) % 256), some (value % 256)] false 2]

/-- Member `probe`. -/
def probe (bus : Bus) (s : MPU6000) : Outcome Int :=
  let r := read_reg bus MPUREG_PRODUCT_ID
  let s1 := { s with _product := r.1 }
  if s1._product = MPU6000ES_REV_C4 ∨ s1._product = MPU6000ES_REV_C5 ∨
      s1._product = MPU6000_REV_C4 ∨ s1._product = MPU6000_REV_C5 ∨
      s1._product = MPU6000ES_REV_D6 ∨ s1._product = MPU6000ES_REV_D7 ∨
      s1._product = MPU6000ES_REV_D8 ∨ s1._product = MPU6000_REV_D6 ∨
      s1._product = MPU6000_REV_D7 ∨ s1._product = MPU6000_REV_D8 ∨
      s1._product = MPU6000_REV_D9 ∨ s1._product = MPU6000_REV_D10 then
    ⟨OK, s1, r.2⟩
  else
    ⟨- errno.EIO, s1, r.2⟩

/-- The product-specific switch of `init`: the write to ACCEL_CONFIG, if
any. The switch has no default label. -/
def product_specific_scaling (product : Nat) : List Event :=
  if product = MPU6000ES_REV_C4 ∨ product = MPU6000ES_REV_C5 ∨
      product = MPU6000_REV_C4 ∨ product = MPU6000_REV_C5 then
    write_reg MPUREG_ACCEL_CONFIG (1 <<< 3)
  else if product = MPU6000ES_REV_D6 ∨ product = MPU6000ES_REV_D7 ∨
      product = MPU6000ES_REV_D8 ∨ product = MPU6000_REV_D6 ∨
      product = MPU6000_REV_D7 ∨ product = MPU6000_REV_D8 ∨
      product = MPU6000_REV_D9 ∨ product = MPU6000_REV_D10 then
    write_reg MPUREG_ACCEL_CONFIG (2 <<< 3)
  else
    []

/-- Member `init`. `base` is the base-class call `SPI::init()` ("do SPI init
(and probe) first"), whose source is not among the files: it gives the
outcome of that call on the driver. `advertise` gives the handle
`orb_advertise` returns for a topic. -/
def init (base : MPU6000 → Outcome Int) (advertise : Topic → Int) (s : MPU6000) :
    Outcome Int :=
  let b := base s
  if b.ret ≠ OK then
    ⟨b.ret, b.dev, b.events⟩
  else
    let s1 := { b.dev with _accel_topic := advertise Topic.sensor_accel }
    let s2 := { s1 with _gyro_topic := advertise Topic.sensor_gyro }
    ⟨b.ret, s2,
      b.events ++
      [Event.orb_advertise Topic.sensor_accel, Event.orb_advertise Topic.sensor_gyro] ++
      write_reg MPUREG_PWR_MGMT_1 BIT_H_RESET ++ [Event.up_udelay 10000] ++
      write_reg MPUREG_PWR_MGMT_1 MPU_CLK_SEL_PLLGYROZ ++ [Event.up_udelay 1000] ++
      write_reg MPUREG_USER_CTRL BIT_I2C_IF_DIS ++ [Event.up_udelay 1000] ++
      write_reg MPUREG_SMPLRT_DIV 0x04 ++ [Event.usleep 1000] ++
      write_reg MPUREG_CONFIG BITS_DLPF_CFG_98HZ ++ [Event.usleep 1000] ++
      write_reg MPUREG_GYRO_CONFIG BITS_FS_2000DPS ++ [Event.usleep 1000] ++
      product_specific_scaling s2._product ++ [Event.usleep 1000] ++
      write_reg MPUREG_INT_ENABLE BIT_RAW_RDY_EN ++ [Event.usleep 1000] ++
      write_reg MPUREG_INT_PIN_CFG BIT_INT_ANYRD_2CLEAR ++ [Event.usleep 1000] ++
      [Event.usleep 1000]⟩

/-- Member `stop`. -/
def stop (s : MPU6000) : Outcome Unit :=
  ⟨(), s, [Event.hrt_cancel]⟩

/-- Member `start`. -/
def start (s : MPU6000) : Outcome Unit :=
  let o := stop s
  ⟨(), o.dev, o.events ++ [Event.hrt_call_every 1000 o.dev._call_interval]⟩

/-- Member `open_first`. -/
def open_first (s : MPU6000) : Outcome Int :=
  ⟨OK, { s with _call_interval := 0 }, []⟩

/-- Member `close_last`. -/
def close_last (s : MPU6000) : Outcome Int :=
  let o := stop s
  ⟨OK, o.dev, o.events⟩

/-- Member `set_range`; its body is compiled out (`#if 0`). -/
def set_range (s : MPU6000) (_max_g : Nat) : Outcome Int :=
  ⟨OK, s, []⟩

end MPU6000

/-- Byte `i` of a buffer the bus has filled. -/
def byteAt (buf : List Nat) (i : Nat) : Nat :=
  buf.getD i 0 % 256

/-- The `uint16_t` member at byte offset `i` of a packed struct, as the
little-endian host reads it: no byte swap. -/
def word16 (buf : List Nat) (i : Nat) : Nat :=
  byteAt buf i + 256 * byteAt buf (i + 1)

/-- The packed `struct Report` local to `measure`. -/
structure Report where
  cmd : Nat
  status : Nat
  accel_x : Nat
  accel_y : Nat
  accel_z : Nat
  temp : Nat
  gyro_x : Nat
  gyro_y : Nat
  gyro_z : Nat
deriving DecidableEq

/-- The sixteen bytes of the transfer buffer seen through `struct Report`. -/
def Report.ofBytes (buf : List Nat) : Report :=
  { cmd := byteAt buf 0
    status := byteAt buf 1
    accel_x := word16 buf 2
    accel_y := word16 buf 4
    accel_z := word16 buf 6
    temp := word16 buf 8
    gyro_x := word16 buf 10
    gyro_y := word16 buf 12
    gyro_z := word16 buf 14 }

namespace MPU6000

/-- Member `measure`. `now` is the value of `hrt_absolute_time()`. Only the
command byte of the buffer is initialised before the exchange, and the
status of the exchange is dropped. -/
def measure (bus : Bus) (now : Nat) (s : MPU6000) : Outcome Unit :=
  let tx : List (Option Nat) :=
    some ((DIR_READ ||| MPUREG_INT_STATUS) % 256) :: List.replicate 15 none
  let report := Report.ofBytes (bus tx 16).2
  let a : accel_report :=
    { timestamp := now
      x := report.accel_x * s._accel_range_scale
      y := report.accel_y * s._accel_range_scale
      z := report.accel_z * s._accel_range_scale }
  let g : gyro_report :=
    { timestamp := now
      x := report.gyro_x * s._gyro_range_scale
      y := report.gyro_y * s._gyro_range_scale
      z := report.gyro_z * s._gyro_range_scale }
  let s1 := { s with _accel_report := a, _gyro_report := g }
  ⟨(), s1,
    [Event.transfer tx true 16,
     Event.poll_notify Endpoint.accel, Event.poll_notify Endpoint.gyro,
     Event.orb_publish_accel s1._accel_topic s1._accel_report,
     Event.orb_publish_gyro s1._gyro_topic s1._gyro_report]⟩

/-- Member `read` (accelerometer node). -/
def read (P : Platform) (bus : Bus) (now : Nat) (s : MPU6000)
    (buffer : Option accel_report) (buflen : Nat) : ReadOutcome accel_report :=
  if buflen < P.sizeof_accel_report then
    ⟨- errno.ENOSPC, buffer, s, []⟩
  else
    let o : Outcome Unit := if s._call_interval = 0 then measure bus now s else ⟨(), s, []⟩
    ⟨(P.sizeof_accel_report : Int), some o.dev._accel_report, o.dev, o.events⟩

/-- Member `gyro_read`. -/
def gyro_read (P : Platform) (bus : Bus) (now : Nat) (s : MPU6000)
    (buffer : Option gyro_report) (buflen : Nat) : ReadOutcome gyro_report :=
  if buflen < P.sizeof_gyro_report then
    ⟨- errno.ENOSPC, buffer, s, []⟩
  else
    let o : Outcome Unit := if s._call_interval = 0 then measure bus now s else ⟨(), s, []⟩
    ⟨(P.sizeof_gyro_report : Int), some o.dev._gyro_report, o.dev, o.events⟩

/-- Member `ioctl` (accelerometer node). -/
def ioctl (P : Platform) (s : MPU6000) (cmd : Cmd) (arg : Nat) : Outcome Int :=
  match cmd with
  | Cmd.ACCELIOCSPOLLRATE =>
    if arg = P.ACC_POLLRATE_MANUAL then
      let o := stop s
      ⟨OK, { o.dev with _call_interval := 0 }, o.events⟩
    else if arg = P.ACC_POLLRATE_EXTERNAL ∨ arg = 0 then
      ⟨- errno.EINVAL, s, []⟩
    else
      let want_start : Bool := s._call_interval == 0
      let ticks : Nat := 1000000 / arg
      if ticks < 1000 then
        ⟨- errno.EINVAL, s, []⟩
      else
        let s1 := { s with _call := { s._call with period := s._call_interval } }
        if want_start then
          let o := start s1
          ⟨OK, o.dev, o.events⟩
        else
          ⟨OK, s1, []⟩
  | Cmd.ACCELIOCSQUEUEDEPTH => ⟨- errno.EINVAL, s, []⟩
  | Cmd.ACCELIOCSLOWPASS => ⟨- errno.EINVAL, s, []⟩
  | Cmd.ACCELIORANGE => set_range s arg
  | Cmd.ACCELIOCSSAMPLERATE => ⟨- errno.EINVAL, s, []⟩
  | Cmd.ACCELIOCSREPORTFORMAT => ⟨- errno.EINVAL, s, []⟩
  | _ => ⟨P.SPI_ioctl cmd arg, s, []⟩

/-- Member `gyro_ioctl`. -/
def gyro_ioctl (P : Platform) (s : MPU6000) (cmd : Cmd) (arg : Nat) : Outcome Int :=
  match cmd with
  | Cmd.GYROIOCSPOLLRATE => ioctl P s Cmd.ACCELIOCSPOLLRATE arg
  | Cmd.GYROIOCSQUEUEDEPTH => ⟨- errno.EINVAL, s, []⟩
  | Cmd.GYROIOCSLOWPASS => ⟨- errno.EINVAL, s, []⟩
  | Cmd.GYROIOCSSCALE => set_range s arg
  | Cmd.GYROIOCSSAMPLERATE => ⟨- errno.EINVAL, s, []⟩
  | Cmd.GYROIOCSREPORTFORMAT => ⟨- errno.EINVAL, s, []⟩
  | _ => ⟨P.SPI_ioctl cmd arg, s, []⟩

end MPU6000

namespace MPU6000_gyro

/-- Member `MPU6000_gyro::read`: the gyroscope node hands the call to its
parent. -/
def read (P : Platform) (bus : Bus) (now : Nat) (parent : MPU6000)
    (buffer : Option gyro_report) (buflen : Nat) : ReadOutcome gyro_report :=
  MPU6000.gyro_read P bus now parent buffer buflen

/-- Member `MPU6000_gyro::ioctl`. -/
def ioctl (P : Platform) (parent : MPU6000) (cmd : Cmd) (arg : Nat) : Outcome Int :=
  MPU6000.gyro_ioctl P parent cmd arg

end MPU6000_gyro

/-! ## Reading the trace -/

/-- The register writes among a list of external calls: the two-byte
exchanges without receive buffer, as (register, value). -/
def reg_writes : List Event → List (Nat × Nat)
  | [] => []
  | Event.transfer [some reg, some value] false 2 :: rest => (reg, value) :: reg_writes rest
  | _ :: rest => reg_writes rest

/-- The bus exchanges among a list of external calls. -/
def bus_exchanges (evs : List Event) : List Event :=
  evs.filter fun e => match e with
    | Event.transfer _ _ _ => true
    | _ => false

/-- The registrations of the periodic callback among a list of external
calls, as the period passed. -/
def registrations : List Event → List Nat
  | [] => []
  | Event.hrt_call_every _ interval :: rest => interval :: registrations rest
  | _ :: rest => registrations rest

/-- The calls to the periodic-callback facility among a list of external
calls: cancellations and registrations, in order. -/
def timer_calls (evs : List Event) : List Event :=
  evs.filter fun e => match e with
    | Event.hrt_cancel => true
    | Event.hrt_call_every _ _ => true
    | _ => false

/-- The twelve product codes named in the source. -/
def knownProducts : List Nat :=
  [0x14, 0x15, 0x16, 0x17, 0x18, 0x54, 0x55, 0x56, 0x57, 0x58, 0x59, 0x5A]

/-- A bus on which every exchange succeeds and the second byte received is
`id`: what the identity register answers on a chip with product code `id`. -/
def idBus (id : Nat) : Bus :=
  fun _ _ => (OK, [0, id])

/-- The values written to register `reg` among a list of external calls, in
order. -/
def written_to (reg : Nat) (evs : List Event) : List Nat :=
  ((reg_writes evs).filter fun w => w.1 = reg).map fun w => w.2

/-- What `init` does itself once the base-class call has returned: its
external calls without those of the base class. -/
def init_own_events (base : MPU6000 → Outcome Int) (advertise : Topic → Int)
    (s : MPU6000) : List Event :=
  (MPU6000.init base advertise s).events.drop (base s).events.length

/-- Layout of a product code, from the comment above the codes in the
source: the high four bits are the product name. -/
def productName (p : Nat) : Nat :=
  p / 16

/-- Layout of a product code: the low four bits are the product revision. -/
def productRevision (p : Nat) : Nat :=
  p % 16

/-- Silicon revision letter. -/
inductive RevisionLetter where
  | C
  | D
deriving DecidableEq

/-- The revision letter of a known code, as the names of the codes give it:
product revisions 4 and 5 are C4 and C5, 6 to 10 are D6 to D10. -/
def revisionLetter (p : Nat) : RevisionLetter :=
  if productRevision p ≤ 5 then RevisionLetter.C else RevisionLetter.D

/-- The ACCEL_CONFIG writes of an initialisation on a chip that answers the
identity read with `id`: the base-class call is the probe on that chip. -/
def accel_config_on_chip (id : Nat) : List Nat :=
  written_to MPUREG_ACCEL_CONFIG
    (init_own_events (MPU6000.probe (idBus id)) (fun _ => 0) (MPU6000.ctor ⟨0⟩))

/-- A sample platform: both records 24 bytes long, the poll-rate constants
above every plain rate. -/
def samplePlatform : Platform :=
  { sizeof_accel_report := 24
    sizeof_gyro_report := 24
    ACC_POLLRATE_MANUAL := 1000000
    ACC_POLLRATE_EXTERNAL := 1000001
    SPI_ioctl := fun _ _ => -25
    manual_ne_external := by decide
    manual_ne_zero := by decide
    external_ne_zero := by decide }

/-- One call into the driver from outside, with what the outside supplies to
it: a tick of the periodic callback (`measure`) or an operation on one of
the two nodes. -/
inductive Op where
  | measure (bus : Bus) (now : Nat)
  | read (bus : Bus) (now : Nat) (buffer : Option accel_report) (buflen : Nat)
  | gyro_read (bus : Bus) (now : Nat) (buffer : Option gyro_report) (buflen : Nat)
  | ioctl (cmd : Cmd) (arg : Nat)
  | gyro_ioctl (cmd : Cmd) (arg : Nat)
  | open_first
  | close_last

/-- The driver record after one call. -/
def Op.apply (P : Platform) (s : MPU6000) : Op → MPU6000
  | Op.measure bus now => (MPU6000.measure bus now s).dev
  | Op.read bus now buffer buflen => (MPU6000.read P bus now s buffer buflen).dev
  | Op.gyro_read bus now buffer buflen => (MPU6000_gyro.read P bus now s buffer buflen).dev
  | Op.ioctl cmd arg => (MPU6000.ioctl P s cmd arg).dev
  | Op.gyro_ioctl cmd arg => (MPU6000_gyro.ioctl P s cmd arg).dev
  | Op.open_first => (MPU6000.open_first s).dev
  | Op.close_last => (MPU6000.close_last s).dev

/-- The driver record after a sequence of calls. -/
def run (P : Platform) (s : MPU6000) (ops : List Op) : MPU6000 :=
  ops.foldl (Op.apply P) s

/-- The two reports carry the same timestamp. -/
def timestamps_agree (s : MPU6000) : Prop :=
  s._accel_report.timestamp = s._gyro_report.timestamp

/-- The buffer `measure` hands to the bus: the command byte, then fifteen
bytes it never initialised. -/
def burst_tx : List (Option Nat) :=
  some ((DIR_READ ||| MPUREG_INT_STATUS) % 256) :: List.replicate 15 none

/-- A bus whose every exchange reports the status `status` and leaves the
bytes `rx` in the receive buffer. -/
def constBus (status : Int) (rx : List Nat) : Bus :=
  fun _ _ => (status, rx)

/-- What a base-class call can do to the private members of the driver: it
reaches them only through the virtual `probe`, which assigns `_product` and
nothing else. -/
def base_keeps_private (base : MPU6000 → Outcome Int) : Prop :=
  ∀ s : MPU6000, ∃ p : Nat, (base s).dev = { s with _product := p }

/-- The driver records reachable from construction by `init` and any
sequence of calls into the driver (ticks, reads and requests on either
node, open_first, close_last). -/
inductive Reachable (P : Platform) : MPU6000 → Prop where
  | ctor (call0 : hrt_call) : Reachable P (MPU6000.ctor call0)
  | init (base : MPU6000 → Outcome Int) (advertise : Topic → Int) (s : MPU6000) :
      base_keeps_private base → Reachable P s →
      Reachable P (MPU6000.init base advertise s).dev
  | op (s : MPU6000) (o : Op) : Reachable P s → Reachable P (o.apply P s)

/-- A report component that is a whole number between 0 and 65535. -/
def is_u16 (x : ℚ) : Prop :=
  ∃ n : Nat, n ≤ 65535 ∧ x = (n : ℚ)

/-- Both range scales are 1 and all six report components are whole numbers
between 0 and 65535. -/
def raw_words_reported (s : MPU6000) : Prop :=
  s._accel_range_scale = 1 ∧ s._gyro_range_scale = 1 ∧
  is_u16 s._accel_report.x ∧ is_u16 s._accel_report.y ∧ is_u16 s._accel_report.z ∧
  is_u16 s._gyro_report.x ∧ is_u16 s._gyro_report.y ∧ is_u16 s._gyro_report.z

/-- A driver after construction, initialisation on a chip with product code
0x58 and a range request of 16 g on the accelerometer node. -/
def sampleReached : MPU6000 :=
  (Op.ioctl Cmd.ACCELIORANGE 16).apply samplePlatform
    (MPU6000.init (MPU6000.probe (idBus 0x58)) (fun _ => 3) (MPU6000.ctor ⟨0⟩)).dev

/-! # Theorems -/

/-! ## Product probe -/

/-- The label set of the switch in `probe` is the list `knownProducts`. -/
theorem probe_labels_iff (p : Nat) :
    (p = MPU6000ES_REV_C4 ∨ p = MPU6000ES_REV_C5 ∨
      p = MPU6000_REV_C4 ∨ p = MPU6000_REV_C5 ∨
      p = MPU6000ES_REV_D6 ∨ p = MPU6000ES_REV_D7 ∨
      p = MPU6000ES_REV_D8 ∨ p = MPU6000_REV_D6 ∨
      p = MPU6000_REV_D7 ∨ p = MPU6000_REV_D8 ∨
      p = MPU6000_REV_D9 ∨ p = MPU6000_REV_D10) ↔ p ∈ knownProducts := by
  simp only [knownProducts, List.mem_cons, List.mem_singleton, List.mem_nil_iff, or_false,
    MPU6000ES_REV_C4, MPU6000ES_REV_C5, MPU6000ES_REV_D6, MPU6000ES_REV_D7,
    MPU6000ES_REV_D8, MPU6000_REV_C4, MPU6000_REV_C5, MPU6000_REV_D6, MPU6000_REV_D7,
    MPU6000_REV_D8, MPU6000_REV_D9, MPU6000_REV_D10]
  omega

/-- What `probe` returns and records, in terms of the byte read. -/
theorem probe_eq (bus : Bus) (s : MPU6000) :
    MPU6000.probe bus s =
      ⟨if (MPU6000.read_reg bus MPUREG_PRODUCT_ID).1 ∈ knownProducts then OK
        else - errno.EIO,
       { s with _product := (MPU6000.read_reg bus MPUREG_PRODUCT_ID).1 },
       (MPU6000.read_reg bus MPUREG_PRODUCT_ID).2⟩ := by
  unfold MPU6000.probe
  simp only [probe_labels_iff]
  split <;> rfl

/-- C1: whatever byte p the identity-register read returns, probe records p
as the product code, returns OK when p is one of the twelve known codes and
-EIO (which is not OK) for every other p; the all-zero code is not known. -/
theorem C1_probe_known_codes (bus : Bus) (s : MPU6000) :
    (MPU6000.read_reg bus MPUREG_PRODUCT_ID).1 < 256 ∧
    (MPU6000.probe bus s).dev._product = (MPU6000.read_reg bus MPUREG_PRODUCT_ID).1 ∧
    (MPU6000.probe bus s).ret =
      (if (MPU6000.read_reg bus MPUREG_PRODUCT_ID).1 ∈ knownProducts then OK
       else - errno.EIO) ∧
    ((MPU6000.probe bus s).ret = OK ↔
      (MPU6000.read_reg bus MPUREG_PRODUCT_ID).1 ∈ knownProducts) ∧
    0x00 ∉ knownProducts := by
  have hlt : (MPU6000.read_reg bus MPUREG_PRODUCT_ID).1 < 256 := by
    simp only [MPU6000.read_reg]
    exact Nat.mod_lt _ (by norm_num)
  refine ⟨hlt, ?_⟩
  rw [probe_eq]
  refine ⟨rfl, rfl, ?_, by decide⟩
  by_cases h : (MPU6000.read_reg bus MPUREG_PRODUCT_ID).1 ∈ knownProducts
  · simp [h]
  · simp [h, OK, errno.EIO]

/-! ## Configuration sequence -/

/-- On a known code the product-specific switch of `init` writes ACCEL_CONFIG
once: 1<<3 for revision C, 2<<3 for revision D. -/
theorem product_specific_scaling_known (p : Nat) (h : p ∈ knownProducts) :
    MPU6000.product_specific_scaling p =
      MPU6000.write_reg MPUREG_ACCEL_CONFIG
        (if revisionLetter p = RevisionLetter.C then 0x08 else 0x10) := by
  simp only [knownProducts, List.mem_cons, List.mem_singleton, List.mem_nil_iff,
    or_false] at h
  rcases h with h | h | h | h | h | h | h | h | h | h | h | h <;> subst h <;> decide

/-- When the base-class call fails, `init` adds nothing to it. -/
theorem init_of_base_failed (base : MPU6000 → Outcome Int) (adv : Topic → Int)
    (s : MPU6000) (h : (base s).ret ≠ OK) : MPU6000.init base adv s = base s := by
  unfold MPU6000.init
  simp only [h, ne_eq, not_false_eq_true, if_true]

/-- When the base-class call succeeds, the external calls `init` makes after
it. -/
theorem init_own_events_of_ok (base : MPU6000 → Outcome Int) (adv : Topic → Int)
    (s : MPU6000) (h : (base s).ret = OK) :
    init_own_events base adv s =
      [Event.orb_advertise Topic.sensor_accel, Event.orb_advertise Topic.sensor_gyro] ++
      MPU6000.write_reg MPUREG_PWR_MGMT_1 BIT_H_RESET ++ [Event.up_udelay 10000] ++
      MPU6000.write_reg MPUREG_PWR_MGMT_1 MPU_CLK_SEL_PLLGYROZ ++ [Event.up_udelay 1000] ++
      MPU6000.write_reg MPUREG_USER_CTRL BIT_I2C_IF_DIS ++ [Event.up_udelay 1000] ++
      MPU6000.write_reg MPUREG_SMPLRT_DIV 0x04 ++ [Event.usleep 1000] ++
      MPU6000.write_reg MPUREG_CONFIG BITS_DLPF_CFG_98HZ ++ [Event.usleep 1000] ++
      MPU6000.write_reg MPUREG_GYRO_CONFIG BITS_FS_2000DPS ++ [Event.usleep 1000] ++
      MPU6000.product_specific_scaling (base s).dev._product ++ [Event.usleep 1000] ++
      MPU6000.write_reg MPUREG_INT_ENABLE BIT_RAW_RDY_EN ++ [Event.usleep 1000] ++
      MPU6000.write_reg MPUREG_INT_PIN_CFG BIT_INT_ANYRD_2CLEAR ++ [Event.usleep 1000] ++
      [Event.usleep 1000] := by
  unfold init_own_events MPU6000.init
  simp only [h, ne_eq, not_true_eq_false, if_false, List.append_assoc, List.drop_left]

/-- The ACCEL_CONFIG writes `init` makes for a known code. -/
theorem accel_config_of_known (base : MPU6000 → Outcome Int) (adv : Topic → Int)
    (s : MPU6000) (h : (base s).ret = OK) (hp : (base s).dev._product ∈ knownProducts) :
    written_to MPUREG_ACCEL_CONFIG (init_own_events base adv s) =
      [if revisionLetter (base s).dev._product = RevisionLetter.C then 0x08 else 0x10] := by
  rw [init_own_events_of_ok base adv s h, product_specific_scaling_known _ hp]
  by_cases hc : revisionLetter (base s).dev._product = RevisionLetter.C
  · simp only [hc, if_true]; decide
  · simp only [hc, if_false]; decide

/-- C2, as the claim words it, fails: the early-sample codes 0x14 and 0x16
share a product name and get different ACCEL_CONFIG values, the codes 0x14
and 0x54 have different product names and get the same value; so "same
family (sample or production) iff same value" does not hold over the known
codes. -/
theorem C2_sample_vs_production_refuted :
    (productName 0x14 = productName 0x16 ∧
      accel_config_on_chip 0x14 = [0x08] ∧ accel_config_on_chip 0x16 = [0x10]) ∧
    (productName 0x14 ≠ productName 0x54 ∧ accel_config_on_chip 0x54 = [0x08]) ∧
    ¬ (∀ a ∈ knownProducts, ∀ b ∈ knownProducts,
        (productName a = productName b ↔
          accel_config_on_chip a = accel_config_on_chip b)) := by
  refine ⟨by decide, by decide, ?_⟩
  intro hall
  have h := (hall 0x14 (by decide) 0x54 (by decide)).mpr (by decide)
  exact absurd h (by decide)

/-- C2, amended: the ACCEL_CONFIG value `init` writes is selected by the
silicon revision letter of the detected code. Every revision-C code (0x14,
0x15, 0x54, 0x55) yields 0x08, every revision-D code (0x16, 0x17, 0x18, 0x56
to 0x5A) yields 0x10, the two values differ, and two known codes have the
same revision letter iff `init` writes the same ACCEL_CONFIG value for
both. -/
theorem C2_accel_config_by_revision
    (base₁ base₂ : MPU6000 → Outcome Int) (adv₁ adv₂ : Topic → Int) (s₁ s₂ : MPU6000)
    (h₁ : (base₁ s₁).ret = OK) (ha : (base₁ s₁).dev._product ∈ knownProducts)
    (h₂ : (base₂ s₂).ret = OK) (hb : (base₂ s₂).dev._product ∈ knownProducts) :
    written_to MPUREG_ACCEL_CONFIG (init_own_events base₁ adv₁ s₁) =
      [if revisionLetter (base₁ s₁).dev._product = RevisionLetter.C then 0x08 else 0x10] ∧
    ((0x08 : Nat) ≠ 0x10) ∧
    ((base₁ s₁).dev._product ∈ [0x14, 0x15, 0x54, 0x55] ↔
      revisionLetter (base₁ s₁).dev._product = RevisionLetter.C) ∧
    (revisionLetter (base₁ s₁).dev._product = revisionLetter (base₂ s₂).dev._product ↔
      written_to MPUREG_ACCEL_CONFIG (init_own_events base₁ adv₁ s₁) =
        written_to MPUREG_ACCEL_CONFIG (init_own_events base₂ adv₂ s₂)) := by
  rw [accel_config_of_known base₁ adv₁ s₁ h₁ ha, accel_config_of_known base₂ adv₂ s₂ h₂ hb]
  refine ⟨rfl, by decide, ?_, ?_⟩
  · generalize (base₁ s₁).dev._product = a at ha
    simp only [knownProducts, List.mem_cons, List.mem_singleton, List.mem_nil_iff,
      or_false] at ha
    rcases ha with h | h | h | h | h | h | h | h | h | h | h | h <;> subst h <;> decide
  · cases hx : revisionLetter (base₁ s₁).dev._product <;>
      cases hy : revisionLetter (base₂ s₂).dev._product <;> simp

/-- C2 at a concrete input: a revision-D production chip (0x58) against a
revision-C sample (0x15). -/
theorem C2_accel_config_by_revision_witness :
    written_to MPUREG_ACCEL_CONFIG
        (init_own_events (MPU6000.probe (idBus 0x58)) (fun _ => 3) (MPU6000.ctor ⟨0⟩)) =
      [0x10] ∧
    written_to MPUREG_ACCEL_CONFIG
        (init_own_events (MPU6000.probe (idBus 0x15)) (fun _ => 4) (MPU6000.ctor ⟨9⟩)) =
      [0x08] := by
  have h := C2_accel_config_by_revision (MPU6000.probe (idBus 0x58))
    (MPU6000.probe (idBus 0x15)) (fun _ => 3) (fun _ => 4) (MPU6000.ctor ⟨0⟩)
    (MPU6000.ctor ⟨9⟩) (by decide) (by decide) (by decide) (by decide)
  exact ⟨h.1, by decide⟩

/-- C3: if the base-class setup and probe step fails with code e, `init`
returns e and makes no external call of its own (no register write, no topic
advertised) and leaves the driver as that step left it; if the step succeeds
having recorded a known product code, `init` returns OK after advertising the
two topics and issuing exactly nine register writes, in this order:
(0x6B, 0x80), (0x6B, 0x03), (0x6A, 0x10), (0x19, 0x04), (0x1A, 0x02),
(0x1B, 0x18), (0x1C, v), (0x38, 0x01), (0x37, 0x10), with v = 0x08 for a
revision-C code and 0x10 for a revision-D code. -/
theorem C3_init_write_sequence (base : MPU6000 → Outcome Int) (adv : Topic → Int)
    (s : MPU6000) :
    ((base s).ret ≠ OK →
      MPU6000.init base adv s = base s ∧ init_own_events base adv s = []) ∧
    ((base s).ret = OK → (base s).dev._product ∈ knownProducts →
      (MPU6000.init base adv s).ret = OK ∧
      (MPU6000.init base adv s).events = (base s).events ++ init_own_events base adv s ∧
      (init_own_events base adv s).filter
          (fun e => e = Event.orb_advertise Topic.sensor_accel ∨
            e = Event.orb_advertise Topic.sensor_gyro) =
        [Event.orb_advertise Topic.sensor_accel, Event.orb_advertise Topic.sensor_gyro] ∧
      bus_exchanges (init_own_events base adv s) =
        MPU6000.write_reg 0x6B 0x80 ++ MPU6000.write_reg 0x6B 0x03 ++
        MPU6000.write_reg 0x6A 0x10 ++ MPU6000.write_reg 0x19 0x04 ++
        MPU6000.write_reg 0x1A 0x02 ++ MPU6000.write_reg 0x1B 0x18 ++
        MPU6000.write_reg 0x1C
          (if revisionLetter (base s).dev._product = RevisionLetter.C then 0x08 else 0x10) ++
        MPU6000.write_reg 0x38 0x01 ++ MPU6000.write_reg 0x37 0x10 ∧
      reg_writes (init_own_events base adv s) =
        [(0x6B, 0x80), (0x6B, 0x03), (0x6A, 0x10), (0x19, 0x04), (0x1A, 0x02),
         (0x1B, 0x18),
         (0x1C, if revisionLetter (base s).dev._product = RevisionLetter.C then 0x08
                else 0x10),
         (0x38, 0x01), (0x37, 0x10)]) := by
  constructor
  · intro h
    have hi := init_of_base_failed base adv s h
    refine ⟨hi, ?_⟩
    unfold init_own_events
    rw [hi]
    exact List.drop_length _
  · intro h hp
    have hev : (MPU6000.init base adv s).events =
        (base s).events ++ init_own_events base adv s := by
      unfold init_own_events MPU6000.init
      simp only [h, ne_eq, not_true_eq_false, if_false, List.append_assoc, List.drop_left]
    have hret : (MPU6000.init base adv s).ret = OK := by
      unfold MPU6000.init
      simp only [h, ne_eq, not_true_eq_false, if_false]
    refine ⟨hret, hev, ?_⟩
    rw [init_own_events_of_ok base adv s h, product_specific_scaling_known _ hp]
    by_cases hc : revisionLetter (base s).dev._product = RevisionLetter.C
    · simp only [hc, if_true]
      exact ⟨by decide, by decide, by decide⟩
    · simp only [hc, if_false]
      exact ⟨by decide, by decide, by decide⟩

/-- C3 at concrete inputs: a chip answering 0x00 (probe fails, `init`
returns -EIO with only the probe's read on the bus) and a chip answering
0x58 (nine writes, ACCEL_CONFIG 0x10). -/
theorem C3_init_write_sequence_witness :
    (MPU6000.init (MPU6000.probe (idBus 0x00)) (fun _ => 3) (MPU6000.ctor ⟨0⟩)).ret =
      - errno.EIO ∧
    reg_writes
        (MPU6000.init (MPU6000.probe (idBus 0x00)) (fun _ => 3) (MPU6000.ctor ⟨0⟩)).events =
      [] ∧
    reg_writes (init_own_events (MPU6000.probe (idBus 0x58)) (fun _ => 3) (MPU6000.ctor ⟨0⟩)) =
      [(0x6B, 0x80), (0x6B, 0x03), (0x6A, 0x10), (0x19, 0x04), (0x1A, 0x02),
       (0x1B, 0x18), (0x1C, 0x10), (0x38, 0x01), (0x37, 0x10)] := by
  have hfail := (C3_init_write_sequence (MPU6000.probe (idBus 0x00)) (fun _ => 3)
    (MPU6000.ctor ⟨0⟩)).1 (by decide)
  have hok := (C3_init_write_sequence (MPU6000.probe (idBus 0x58)) (fun _ => 3)
    (MPU6000.ctor ⟨0⟩)).2 (by decide) (by decide)
  refine ⟨?_, ?_, hok.2.2.2.2⟩
  · rw [hfail.1]; decide
  · rw [hfail.1]; decide

/-! ## Reads -/

/-- C4: on both nodes, in every driver state, a read with a buffer length
below the size of the node's report record returns -ENOSPC, hands the
caller's buffer back as it was, makes no external call (no bus exchange) and
leaves the driver record as it was. -/
theorem C4_read_short_buffer (P : Platform) (bus : Bus) (now : Nat) (s : MPU6000)
    (abuf : Option accel_report) (alen : Nat) (gbuf : Option gyro_report) (glen : Nat)
    (ha : alen < P.sizeof_accel_report) (hg : glen < P.sizeof_gyro_report) :
    MPU6000.read P bus now s abuf alen = ⟨- errno.ENOSPC, abuf, s, []⟩ ∧
    MPU6000.gyro_read P bus now s gbuf glen = ⟨- errno.ENOSPC, gbuf, s, []⟩ ∧
    MPU6000_gyro.read P bus now s gbuf glen = ⟨- errno.ENOSPC, gbuf, s, []⟩ ∧
    bus_exchanges (MPU6000.read P bus now s abuf alen).events = [] ∧
    bus_exchanges (MPU6000_gyro.read P bus now s gbuf glen).events = [] := by
  have h1 : MPU6000.read P bus now s abuf alen = ⟨- errno.ENOSPC, abuf, s, []⟩ := by
    unfold MPU6000.read
    simp only [ha, if_true]
  have h2 : MPU6000.gyro_read P bus now s gbuf glen = ⟨- errno.ENOSPC, gbuf, s, []⟩ := by
    unfold MPU6000.gyro_read
    simp only [hg, if_true]
  have h3 : MPU6000_gyro.read P bus now s gbuf glen = ⟨- errno.ENOSPC, gbuf, s, []⟩ := h2
  refine ⟨h1, h2, h3, ?_, ?_⟩
  · rw [h1]; rfl
  · rw [h3]; rfl

/-- C4 at a concrete input: 23-byte buffers against 24-byte records, on a
freshly constructed driver and a bus that would answer. -/
theorem C4_read_short_buffer_witness :
    (23 < samplePlatform.sizeof_accel_report ∧ 23 < samplePlatform.sizeof_gyro_report) ∧
    MPU6000.read samplePlatform (idBus 7) 5 (MPU6000.ctor ⟨0⟩) none 23 =
      ⟨- errno.ENOSPC, none, MPU6000.ctor ⟨0⟩, []⟩ ∧
    MPU6000_gyro.read samplePlatform (idBus 7) 5 (MPU6000.ctor ⟨0⟩) (some ⟨1, 2, 3, 4⟩) 23 =
      ⟨- errno.ENOSPC, some ⟨1, 2, 3, 4⟩, MPU6000.ctor ⟨0⟩, []⟩ := by
  have h := C4_read_short_buffer samplePlatform (idBus 7) 5 (MPU6000.ctor ⟨0⟩) none 23
    (some ⟨1, 2, 3, 4⟩) 23 (by decide) (by decide)
  exact ⟨⟨by decide, by decide⟩, h.1, h.2.2.1⟩

/-- The external calls of one measurement contain exactly one bus exchange,
the sixteen-byte burst. -/
theorem measure_bus_exchanges (bus : Bus) (now : Nat) (s : MPU6000) :
    bus_exchanges (MPU6000.measure bus now s).events = [Event.transfer burst_tx true 16] := by
  simp [bus_exchanges, MPU6000.measure, burst_tx]

/-- C5: on both nodes, with a buffer at least as long as the report record:
when the sampling interval is 0 the read performs exactly one measurement
(its external calls are those of one `measure`, among them exactly one bus
exchange, the burst) and copies out the report that measurement produced;
when the interval is nonzero it makes no external call, leaves the driver as
it was and copies out the stored report. In both cases it returns the size
of the record. -/
theorem C5_read_measures_when_stopped (P : Platform) (bus : Bus) (now : Nat) (s : MPU6000)
    (abuf : Option accel_report) (alen : Nat) (gbuf : Option gyro_report) (glen : Nat)
    (ha : P.sizeof_accel_report ≤ alen) (hg : P.sizeof_gyro_report ≤ glen) :
    (MPU6000.read P bus now s abuf alen).ret = P.sizeof_accel_report ∧
    (MPU6000_gyro.read P bus now s gbuf glen).ret = P.sizeof_gyro_report ∧
    (s._call_interval = 0 →
      MPU6000.read P bus now s abuf alen =
        ⟨P.sizeof_accel_report, some (MPU6000.measure bus now s).dev._accel_report,
         (MPU6000.measure bus now s).dev, (MPU6000.measure bus now s).events⟩ ∧
      MPU6000_gyro.read P bus now s gbuf glen =
        ⟨P.sizeof_gyro_report, some (MPU6000.measure bus now s).dev._gyro_report,
         (MPU6000.measure bus now s).dev, (MPU6000.measure bus now s).events⟩ ∧
      bus_exchanges (MPU6000.read P bus now s abuf alen).events =
        [Event.transfer burst_tx true 16] ∧
      bus_exchanges (MPU6000_gyro.read P bus now s gbuf glen).events =
        [Event.transfer burst_tx true 16]) ∧
    (s._call_interval ≠ 0 →
      MPU6000.read P bus now s abuf alen =
        ⟨P.sizeof_accel_report, some s._accel_report, s, []⟩ ∧
      MPU6000_gyro.read P bus now s gbuf glen =
        ⟨P.sizeof_gyro_report, some s._gyro_report, s, []⟩) := by
  have ha' : ¬ alen < P.sizeof_accel_report := Nat.not_lt.mpr ha
  have hg' : ¬ glen < P.sizeof_gyro_report := Nat.not_lt.mpr hg
  refine ⟨?_, ?_, ?_, ?_⟩
  · unfold MPU6000.read
    simp only [ha', if_false]
  · unfold MPU6000_gyro.read MPU6000.gyro_read
    simp only [hg', if_false]
  · intro h0
    have h1 : MPU6000.read P bus now s abuf alen =
        ⟨P.sizeof_accel_report, some (MPU6000.measure bus now s).dev._accel_report,
         (MPU6000.measure bus now s).dev, (MPU6000.measure bus now s).events⟩ := by
      unfold MPU6000.read
      simp only [ha', if_false, h0, if_true]
    have h2 : MPU6000_gyro.read P bus now s gbuf glen =
        ⟨P.sizeof_gyro_report, some (MPU6000.measure bus now s).dev._gyro_report,
         (MPU6000.measure bus now s).dev, (MPU6000.measure bus now s).events⟩ := by
      unfold MPU6000_gyro.read MPU6000.gyro_read
      simp only [hg', if_false, h0, if_true]
    refine ⟨h1, h2, ?_, ?_⟩
    · rw [h1]; exact measure_bus_exchanges bus now s
    · rw [h2]; exact measure_bus_exchanges bus now s
  · intro h0
    constructor
    · unfold MPU6000.read
      simp only [ha', if_false, h0]
    · unfold MPU6000_gyro.read MPU6000.gyro_read
      simp only [hg', if_false, h0]

/-- C5 at concrete inputs, 24-byte buffers on the sample platform: on a
freshly constructed driver (interval 0) the read makes one bus exchange and
returns 24; on a driver whose interval is 5000 the read calls nothing and
copies out the stored report. -/
theorem C5_read_measures_when_stopped_witness :
    (MPU6000.ctor ⟨0⟩)._call_interval = 0 ∧
    samplePlatform.sizeof_accel_report ≤ 24 ∧
    (bus_exchanges (MPU6000.read samplePlatform (fun _ _ => (OK, List.range 16)) 77
        (MPU6000.ctor ⟨0⟩) none 24).events).length = 1 ∧
    (MPU6000.read samplePlatform (fun _ _ => (OK, List.range 16)) 77
        (MPU6000.ctor ⟨0⟩) none 24).ret = 24 ∧
    MPU6000_gyro.read samplePlatform (fun _ _ => (OK, List.range 16)) 77
        { MPU6000.ctor ⟨0⟩ with _call_interval := 5000 } none 24 =
      ⟨24, some ⟨0, 0, 0, 0⟩, { MPU6000.ctor ⟨0⟩ with _call_interval := 5000 }, []⟩ := by
  have h := C5_read_measures_when_stopped samplePlatform (fun _ _ => (OK, List.range 16)) 77
    (MPU6000.ctor ⟨0⟩) none 24 none 24 (by decide) (by decide)
  have h' := C5_read_measures_when_stopped samplePlatform (fun _ _ => (OK, List.range 16)) 77
    { MPU6000.ctor ⟨0⟩ with _call_interval := 5000 } none 24 none 24 (by decide) (by decide)
  refine ⟨rfl, by decide, ?_, h.1, (h'.2.2.2 (by decide)).2⟩
  rw [(h.2.2.1 rfl).2.2.1]
  rfl

/-! ## Timestamps -/

/-- Every measurement stamps both reports with the clock value it
sampled. -/
theorem measure_timestamps (bus : Bus) (now : Nat) (s : MPU6000) :
    (MPU6000.measure bus now s).dev._accel_report.timestamp = now ∧
    (MPU6000.measure bus now s).dev._gyro_report.timestamp = now :=
  ⟨rfl, rfl⟩

/-- The poll-rate control and every other request leave both reports as they
were. -/
theorem ioctl_reports (P : Platform) (s : MPU6000) (cmd : Cmd) (arg : Nat) :
    (MPU6000.ioctl P s cmd arg).dev._accel_report = s._accel_report ∧
    (MPU6000.ioctl P s cmd arg).dev._gyro_report = s._gyro_report := by
  cases cmd <;> simp only [MPU6000.ioctl, MPU6000.set_range, and_self]
  split
  · exact ⟨rfl, rfl⟩
  · split
    · exact ⟨rfl, rfl⟩
    · split
      · exact ⟨rfl, rfl⟩
      · split <;> exact ⟨rfl, rfl⟩

/-- Requests on the gyroscope node leave both reports as they were. -/
theorem gyro_ioctl_reports (P : Platform) (s : MPU6000) (cmd : Cmd) (arg : Nat) :
    (MPU6000.gyro_ioctl P s cmd arg).dev._accel_report = s._accel_report ∧
    (MPU6000.gyro_ioctl P s cmd arg).dev._gyro_report = s._gyro_report := by
  cases cmd <;> simp only [MPU6000.gyro_ioctl, MPU6000.set_range, and_self]
  exact ioctl_reports P s Cmd.ACCELIOCSPOLLRATE arg

/-- One call into the driver keeps the two timestamps equal. -/
theorem apply_timestamps_agree (P : Platform) (s : MPU6000) (op : Op)
    (h : timestamps_agree s) : timestamps_agree (op.apply P s) := by
  unfold timestamps_agree at h ⊢
  cases op with
  | measure bus now => rfl
  | read bus now buffer buflen =>
    simp only [Op.apply, MPU6000.read]
    split
    · exact h
    · split
      · rfl
      · exact h
  | gyro_read bus now buffer buflen =>
    simp only [Op.apply, MPU6000_gyro.read, MPU6000.gyro_read]
    split
    · exact h
    · split
      · rfl
      · exact h
  | ioctl cmd arg =>
    simp only [Op.apply]
    rw [(ioctl_reports P s cmd arg).1, (ioctl_reports P s cmd arg).2]
    exact h
  | gyro_ioctl cmd arg =>
    simp only [Op.apply, MPU6000_gyro.ioctl]
    rw [(gyro_ioctl_reports P s cmd arg).1, (gyro_ioctl_reports P s cmd arg).2]
    exact h
  | open_first => exact h
  | close_last => exact h

/-- A sequence of calls keeps the two timestamps equal. -/
theorem run_timestamps_agree (P : Platform) (ops : List Op) (s : MPU6000)
    (h : timestamps_agree s) : timestamps_agree (run P s ops) := by
  induction ops generalizing s with
  | nil => exact h
  | cons op rest ih => exact ih (op.apply P s) (apply_timestamps_agree P s op h)

/-- C6: the two report timestamps are equal after construction (both 0),
stay equal across every call into the driver (a measurement, a read on
either node, any ioctl on either node, open_first, close_last), hence in
every state reached from construction by any sequence of such calls; `init`
keeps them as the base-class call left them; and after a measurement both
equal the one clock value that measurement sampled. -/
theorem C6_timestamps_agree (P : Platform) (call0 : hrt_call) :
    ((MPU6000.ctor call0)._accel_report.timestamp = 0 ∧
      (MPU6000.ctor call0)._gyro_report.timestamp = 0 ∧
      timestamps_agree (MPU6000.ctor call0)) ∧
    (∀ (s : MPU6000) (op : Op), timestamps_agree s → timestamps_agree (op.apply P s)) ∧
    (∀ ops : List Op, timestamps_agree (run P (MPU6000.ctor call0) ops)) ∧
    (∀ (base : MPU6000 → Outcome Int) (adv : Topic → Int) (s : MPU6000),
      (MPU6000.init base adv s).dev._accel_report = (base s).dev._accel_report ∧
      (MPU6000.init base adv s).dev._gyro_report = (base s).dev._gyro_report) ∧
    (∀ (bus : Bus) (now : Nat) (s : MPU6000),
      (MPU6000.measure bus now s).dev._accel_report.timestamp = now ∧
      (MPU6000.measure bus now s).dev._gyro_report.timestamp = now ∧
      timestamps_agree (MPU6000.measure bus now s).dev) := by
  refine ⟨⟨rfl, rfl, rfl⟩, fun s op h => apply_timestamps_agree P s op h,
    fun ops => run_timestamps_agree P ops _ rfl, ?_, fun bus now s => ⟨rfl, rfl, rfl⟩⟩
  intro base adv s
  by_cases hb : (base s).ret = OK
  · simp only [MPU6000.init, hb, ne_eq, not_true_eq_false, if_false, and_self]
  · rw [init_of_base_failed base adv s hb]
    exact ⟨rfl, rfl⟩

/-- C6 at a concrete input: construction, a read that measures at time 77, a
poll-rate request, a tick at time 90 and a close leave both timestamps
equal. -/
theorem C6_timestamps_agree_witness :
    timestamps_agree (MPU6000.ctor ⟨0⟩) ∧
    timestamps_agree
      (run samplePlatform (MPU6000.ctor ⟨0⟩)
        [Op.read (idBus 7) 77 none 24, Op.ioctl Cmd.ACCELIOCSPOLLRATE 200,
         Op.measure (idBus 9) 90, Op.close_last]) ∧
    timestamps_agree
      ((Op.measure (idBus 9) 90).apply samplePlatform (MPU6000.ctor ⟨0⟩)) :=
  ⟨rfl, (C6_timestamps_agree samplePlatform ⟨0⟩).2.2.1 _,
    (C6_timestamps_agree samplePlatform ⟨0⟩).2.1 _ _ rfl⟩

/-! ## Poll-rate control -/

/-- The poll-rate control on a rate that is not one of the two constants and
not 0, in full. -/
theorem ioctl_poll_rate_plain (P : Platform) (s : MPU6000) (arg : Nat)
    (hm : arg ≠ P.ACC_POLLRATE_MANUAL) (he : arg ≠ P.ACC_POLLRATE_EXTERNAL) (h0 : arg ≠ 0) :
    MPU6000.ioctl P s Cmd.ACCELIOCSPOLLRATE arg =
      if 1000000 / arg < 1000 then ⟨- errno.EINVAL, s, []⟩
      else if s._call_interval = 0 then
        ⟨OK, { s with _call := { s._call with period := s._call_interval } },
          [Event.hrt_cancel, Event.hrt_call_every 1000 s._call_interval]⟩
      else ⟨OK, { s with _call := { s._call with period := s._call_interval } }, []⟩ := by
  simp only [MPU6000.ioctl, hm, he, h0, or_self, if_false]
  split
  · rfl
  · by_cases hi : s._call_interval = 0
    · simp [hi, MPU6000.start, MPU6000.stop]
    · simp [hi]

/-- C7: in every driver state, the poll-rate control with argument 0, with
the "external" constant, or with a rate other than the "manual" constant
whose period 1000000 / hz is below 1000 (every hz above 1000 that is not one
of the two constants) returns -EINVAL from either node, makes no external call
(no cancel, no registration) and leaves the whole driver record, interval and
both reports included, as it was. The rate 1000, whose period is exactly
1000, is accepted (unless 1000 is the "external" constant). -/
theorem C7_poll_rate_rejected (P : Platform) (s : MPU6000) (arg : Nat)
    (h : arg = 0 ∨ arg = P.ACC_POLLRATE_EXTERNAL ∨
      (arg ≠ P.ACC_POLLRATE_MANUAL ∧ 1000000 / arg < 1000)) :
    MPU6000.ioctl P s Cmd.ACCELIOCSPOLLRATE arg = ⟨- errno.EINVAL, s, []⟩ ∧
    MPU6000_gyro.ioctl P s Cmd.GYROIOCSPOLLRATE arg = ⟨- errno.EINVAL, s, []⟩ ∧
    (∀ hz : Nat, 1000 < hz → hz ≠ P.ACC_POLLRATE_MANUAL → hz ≠ P.ACC_POLLRATE_EXTERNAL →
      1000000 / hz < 1000 ∧
      MPU6000.ioctl P s Cmd.ACCELIOCSPOLLRATE hz = ⟨- errno.EINVAL, s, []⟩) ∧
    (1000000 / 1000 = 1000 ∧
      (1000 ≠ P.ACC_POLLRATE_EXTERNAL →
        (MPU6000.ioctl P s Cmd.ACCELIOCSPOLLRATE 1000).ret = OK ∧
        (MPU6000_gyro.ioctl P s Cmd.GYROIOCSPOLLRATE 1000).ret = OK)) := by
  have hrej : MPU6000.ioctl P s Cmd.ACCELIOCSPOLLRATE arg = ⟨- errno.EINVAL, s, []⟩ := by
    rcases h with h | h | ⟨hm, ht⟩
    · subst h
      have hm : (0 : Nat) ≠ P.ACC_POLLRATE_MANUAL := fun e => P.manual_ne_zero e.symm
      simp only [MPU6000.ioctl, hm, if_false, or_true, if_true]
    · subst h
      have hm : P.ACC_POLLRATE_EXTERNAL ≠ P.ACC_POLLRATE_MANUAL :=
        fun e => P.manual_ne_external e.symm
      simp only [MPU6000.ioctl, hm, if_false, true_or, if_true]
    · by_cases he : arg = P.ACC_POLLRATE_EXTERNAL ∨ arg = 0
      · simp only [MPU6000.ioctl, hm, if_false, he, if_true]
      · simp only [MPU6000.ioctl, hm, if_false, he, ht, if_true]
  have hhz : ∀ hz : Nat, 1000 < hz → hz ≠ P.ACC_POLLRATE_MANUAL →
      hz ≠ P.ACC_POLLRATE_EXTERNAL →
      1000000 / hz < 1000 ∧
      MPU6000.ioctl P s Cmd.ACCELIOCSPOLLRATE hz = ⟨- errno.EINVAL, s, []⟩ := by
    intro hz hgt hm he
    have ht : 1000000 / hz < 1000 := by
      rw [Nat.div_lt_iff_lt_mul (by omega)]
      omega
    refine ⟨ht, ?_⟩
    rw [ioctl_poll_rate_plain P s hz hm he (by omega)]
    simp only [ht, if_true]
  have hbound : 1000 ≠ P.ACC_POLLRATE_EXTERNAL →
      (MPU6000.ioctl P s Cmd.ACCELIOCSPOLLRATE 1000).ret = OK := by
    intro he
    by_cases hm : 1000 = P.ACC_POLLRATE_MANUAL
    · simp only [MPU6000.ioctl, hm, if_true]
    · rw [ioctl_poll_rate_plain P s 1000 hm he (by decide)]
      by_cases hi : s._call_interval = 0 <;> simp [hi]
  exact ⟨hrej, hrej, hhz, by decide, fun he => ⟨hbound he, hbound he⟩⟩

/-- C7 at concrete inputs on the sample platform: the rates 0, 1000001 (the
"external" constant) and 1001 are rejected on a freshly constructed driver,
which stays as constructed; the rate 1000 is accepted. -/
theorem C7_poll_rate_rejected_witness :
    MPU6000.ioctl samplePlatform (MPU6000.ctor ⟨0⟩) Cmd.ACCELIOCSPOLLRATE 0 =
      ⟨- errno.EINVAL, MPU6000.ctor ⟨0⟩, []⟩ ∧
    MPU6000.ioctl samplePlatform (MPU6000.ctor ⟨0⟩) Cmd.ACCELIOCSPOLLRATE 1000001 =
      ⟨- errno.EINVAL, MPU6000.ctor ⟨0⟩, []⟩ ∧
    (1000000 / 1001 < 1000 ∧
      MPU6000_gyro.ioctl samplePlatform (MPU6000.ctor ⟨0⟩) Cmd.GYROIOCSPOLLRATE 1001 =
        ⟨- errno.EINVAL, MPU6000.ctor ⟨0⟩, []⟩) ∧
    (MPU6000.ioctl samplePlatform (MPU6000.ctor ⟨0⟩) Cmd.ACCELIOCSPOLLRATE 1000).ret = OK :=
  ⟨(C7_poll_rate_rejected samplePlatform (MPU6000.ctor ⟨0⟩) 0 (Or.inl rfl)).1,
   (C7_poll_rate_rejected samplePlatform (MPU6000.ctor ⟨0⟩) 1000001 (Or.inr (Or.inl rfl))).1,
   ⟨by decide,
    (C7_poll_rate_rejected samplePlatform (MPU6000.ctor ⟨0⟩) 1001
      (Or.inr (Or.inr ⟨by decide, by decide⟩))).2.1⟩,
   ((C7_poll_rate_rejected samplePlatform (MPU6000.ctor ⟨0⟩) 0 (Or.inl rfl)).2.2.2.2
      (by decide)).1⟩

/-- From a state with interval 0, a valid plain rate is accepted, but the
period computed from it is stored nowhere: the interval stays 0 and the
callback is registered with period 0. -/
theorem ioctl_poll_rate_from_stopped (P : Platform) (s : MPU6000) (arg : Nat)
    (hm : arg ≠ P.ACC_POLLRATE_MANUAL) (he : arg ≠ P.ACC_POLLRATE_EXTERNAL) (h0 : arg ≠ 0)
    (ht : 1000 ≤ 1000000 / arg) (hs : s._call_interval = 0) :
    (MPU6000.ioctl P s Cmd.ACCELIOCSPOLLRATE arg).ret = OK ∧
    (MPU6000.ioctl P s Cmd.ACCELIOCSPOLLRATE arg).dev._call_interval = 0 ∧
    (MPU6000.ioctl P s Cmd.ACCELIOCSPOLLRATE arg).events =
      [Event.hrt_cancel, Event.hrt_call_every 1000 0] := by
  rw [ioctl_poll_rate_plain P s arg hm he h0]
  have ht' : ¬ 1000000 / arg < 1000 := Nat.not_lt.mpr ht
  simp [ht', hs]

/-- C8, evaluated on the code: on a freshly constructed driver (interval 0,
nothing registered) the poll-rate control with 200 Hz, whose period is 5000,
returns OK, yet the stored interval is 0 afterwards, not 5000, and the one
registration it makes passes period 0. -/
theorem C8_poll_rate_period_not_stored :
    1000000 / 200 = 5000 ∧
    (MPU6000.ctor ⟨0⟩)._call_interval = 0 ∧
    (MPU6000.ioctl samplePlatform (MPU6000.ctor ⟨0⟩) Cmd.ACCELIOCSPOLLRATE 200).ret = OK ∧
    (MPU6000.ioctl samplePlatform (MPU6000.ctor ⟨0⟩)
      Cmd.ACCELIOCSPOLLRATE 200).dev._call_interval = 0 ∧
    (MPU6000.ioctl samplePlatform (MPU6000.ctor ⟨0⟩) Cmd.ACCELIOCSPOLLRATE 200).events =
      [Event.hrt_cancel, Event.hrt_call_every 1000 0] ∧
    registrations
      (MPU6000.ioctl samplePlatform (MPU6000.ctor ⟨0⟩) Cmd.ACCELIOCSPOLLRATE 200).events =
      [0] := by
  decide

/-- C9, evaluated on the code: on a freshly constructed driver the poll-rate
control with 200 Hz and then with 100 Hz both return OK, and the second one
cancels and registers the callback again, because the interval is still 0
after the first: two registrations over the two controls, not one. -/
theorem C9_second_control_registers_again :
    (MPU6000.ioctl samplePlatform (MPU6000.ctor ⟨0⟩) Cmd.ACCELIOCSPOLLRATE 200).ret = OK ∧
    (MPU6000.ioctl samplePlatform
      (MPU6000.ioctl samplePlatform (MPU6000.ctor ⟨0⟩) Cmd.ACCELIOCSPOLLRATE 200).dev
      Cmd.ACCELIOCSPOLLRATE 100).ret = OK ∧
    (MPU6000.ioctl samplePlatform
      (MPU6000.ioctl samplePlatform (MPU6000.ctor ⟨0⟩) Cmd.ACCELIOCSPOLLRATE 200).dev
      Cmd.ACCELIOCSPOLLRATE 100).events =
      [Event.hrt_cancel, Event.hrt_call_every 1000 0] ∧
    registrations
      ((MPU6000.ioctl samplePlatform (MPU6000.ctor ⟨0⟩) Cmd.ACCELIOCSPOLLRATE 200).events ++
       (MPU6000.ioctl samplePlatform
         (MPU6000.ioctl samplePlatform (MPU6000.ctor ⟨0⟩) Cmd.ACCELIOCSPOLLRATE 200).dev
         Cmd.ACCELIOCSPOLLRATE 100).events) = [0, 0] := by
  decide

/-- C10: in every driver state and for every argument, the poll-rate control
issued on the gyroscope node (`MPU6000_gyro::ioctl` with GYROIOCSPOLLRATE)
has the outcome of the control issued on the accelerometer node
(`MPU6000::ioctl` with ACCELIOCSPOLLRATE): the same result code, the same
driver record afterwards and the same external calls, so the same sequence
of timer cancellations and registrations. -/
theorem C10_gyro_poll_rate_same_as_accel (P : Platform) (s : MPU6000) (arg : Nat) :
    (MPU6000_gyro.ioctl P s Cmd.GYROIOCSPOLLRATE arg).ret =
      (MPU6000.ioctl P s Cmd.ACCELIOCSPOLLRATE arg).ret ∧
    (MPU6000_gyro.ioctl P s Cmd.GYROIOCSPOLLRATE arg).dev =
      (MPU6000.ioctl P s Cmd.ACCELIOCSPOLLRATE arg).dev ∧
    (MPU6000_gyro.ioctl P s Cmd.GYROIOCSPOLLRATE arg).events =
      (MPU6000.ioctl P s Cmd.ACCELIOCSPOLLRATE arg).events ∧
    timer_calls (MPU6000_gyro.ioctl P s Cmd.GYROIOCSPOLLRATE arg).events =
      timer_calls (MPU6000.ioctl P s Cmd.ACCELIOCSPOLLRATE arg).events :=
  ⟨rfl, rfl, rfl, rfl⟩

/-! ## Unsupported controls -/

/-- C11, as the claim words it, fails on the range and scale controls: on a
freshly constructed driver ACCELIORANGE on the accelerometer node and
GYROIOCSSCALE on the gyroscope node return OK, which is not -EINVAL. -/
theorem C11_range_control_returns_ok :
    (MPU6000.ioctl samplePlatform (MPU6000.ctor ⟨0⟩) Cmd.ACCELIORANGE 8).ret = OK ∧
    (MPU6000_gyro.ioctl samplePlatform (MPU6000.ctor ⟨0⟩) Cmd.GYROIOCSSCALE 8).ret = OK ∧
    (MPU6000.ioctl samplePlatform (MPU6000.ctor ⟨0⟩) Cmd.ACCELIORANGE 8).ret ≠
      - errno.EINVAL ∧
    (MPU6000_gyro.ioctl samplePlatform (MPU6000.ctor ⟨0⟩) Cmd.GYROIOCSSCALE 8).ret ≠
      - errno.EINVAL := by
  decide

/-- C11, amended: in every driver state and for every argument, the
queue-depth controls (ACCELIOCSQUEUEDEPTH, GYROIOCSQUEUEDEPTH) and the
low-pass controls (ACCELIOCSLOWPASS, GYROIOCSLOWPASS) return -EINVAL, which
is not OK, make no external call and leave the driver record as it was; the
range and scale controls (ACCELIORANGE on the accelerometer node,
GYROIOCSSCALE on the gyroscope node) are handed to `set_range`, whose body is
compiled out: they return OK, make no external call and leave the driver
record as it was. -/
theorem C11_unsupported_controls (P : Platform) (s : MPU6000) (arg : Nat) :
    MPU6000.ioctl P s Cmd.ACCELIOCSQUEUEDEPTH arg = ⟨- errno.EINVAL, s, []⟩ ∧
    MPU6000.ioctl P s Cmd.ACCELIOCSLOWPASS arg = ⟨- errno.EINVAL, s, []⟩ ∧
    MPU6000_gyro.ioctl P s Cmd.GYROIOCSQUEUEDEPTH arg = ⟨- errno.EINVAL, s, []⟩ ∧
    MPU6000_gyro.ioctl P s Cmd.GYROIOCSLOWPASS arg = ⟨- errno.EINVAL, s, []⟩ ∧
    - errno.EINVAL ≠ OK ∧
    MPU6000.ioctl P s Cmd.ACCELIORANGE arg = ⟨OK, s, []⟩ ∧
    MPU6000_gyro.ioctl P s Cmd.GYROIOCSSCALE arg = ⟨OK, s, []⟩ ∧
    MPU6000.ioctl P s Cmd.ACCELIORANGE arg = MPU6000.set_range s arg ∧
    MPU6000_gyro.ioctl P s Cmd.GYROIOCSSCALE arg = MPU6000.set_range s arg :=
  ⟨rfl, rfl, rfl, rfl, by decide, rfl, rfl, rfl, rfl⟩

/-! ## Measurement -/

/-- The defining equation of `measure` for the two reports, whatever the bus
answered: both stamped with the clock value, each component the 16-bit word
at its offset in the transfer buffer times the range scale, as a rational
product. It is rewritten with range scale 1 wherever it is used. -/
theorem measure_reports (bus : Bus) (now : Nat) (s : MPU6000) :
    (MPU6000.measure bus now s).dev._accel_report =
      { timestamp := now
        x := (word16 (bus burst_tx 16).2 2 : ℚ) * s._accel_range_scale
        y := (word16 (bus burst_tx 16).2 4 : ℚ) * s._accel_range_scale
        z := (word16 (bus burst_tx 16).2 6 : ℚ) * s._accel_range_scale } ∧
    (MPU6000.measure bus now s).dev._gyro_report =
      { timestamp := now
        x := (word16 (bus burst_tx 16).2 10 : ℚ) * s._gyro_range_scale
        y := (word16 (bus burst_tx 16).2 12 : ℚ) * s._gyro_range_scale
        z := (word16 (bus burst_tx 16).2 14 : ℚ) * s._gyro_range_scale } :=
  ⟨rfl, rfl⟩

/-- C12, as the claim words it, fails: on a freshly constructed driver (both
reports zero) a burst exchange that returns the status -EIO and leaves the
bytes 0..15 in the buffer is followed by both reports being overwritten: the
timestamps become the clock value 77 and the components the words of the
buffer. -/
theorem C12_failed_exchange_overwrites_reports :
    (constBus (- errno.EIO) (List.range 16) burst_tx 16).1 ≠ OK ∧
    (MPU6000.ctor ⟨0⟩)._accel_report = ⟨0, 0, 0, 0⟩ ∧
    (MPU6000.ctor ⟨0⟩)._gyro_report = ⟨0, 0, 0, 0⟩ ∧
    (MPU6000.measure (constBus (- errno.EIO) (List.range 16)) 77
      (MPU6000.ctor ⟨0⟩)).dev._accel_report = ⟨77, 770, 1284, 1798⟩ ∧
    (MPU6000.measure (constBus (- errno.EIO) (List.range 16)) 77
      (MPU6000.ctor ⟨0⟩)).dev._gyro_report = ⟨77, 2826, 3340, 3854⟩ ∧
    (MPU6000.measure (constBus (- errno.EIO) (List.range 16)) 77
      (MPU6000.ctor ⟨0⟩)).dev._accel_report.timestamp ≠
      (MPU6000.ctor ⟨0⟩)._accel_report.timestamp := by
  refine ⟨by decide, rfl, rfl, ?_, ?_, by decide⟩
  · rw [(measure_reports _ _ _).1]
    simp [constBus, word16, byteAt, MPU6000.ctor]
  · rw [(measure_reports _ _ _).2]
    simp [constBus, word16, byteAt, MPU6000.ctor]

/-- C12, amended: `measure` does not look at the status of the burst
exchange. In every driver state, replacing the status the transport returns
by any other status changes neither the driver record nor the external calls
of the measurement, and whatever the status both reports are stamped with
the clock value the measurement sampled. In every state whose two range
scales are 1, the value the constructor gives them, the measurement sets,
whatever the status, each component of both reports to the 16-bit word at
its place in the transfer buffer. -/
theorem C12_measure_ignores_status (bus : Bus) (status : Int) (now : Nat) (s : MPU6000) :
    MPU6000.measure (fun tx len => (status, (bus tx len).2)) now s =
      MPU6000.measure bus now s ∧
    ((MPU6000.measure bus now s).dev._accel_report.timestamp = now ∧
      (MPU6000.measure bus now s).dev._gyro_report.timestamp = now) ∧
    (s._accel_range_scale = 1 → s._gyro_range_scale = 1 →
      (MPU6000.measure bus now s).dev._accel_report =
        { timestamp := now
          x := (word16 (bus burst_tx 16).2 2 : ℚ)
          y := (word16 (bus burst_tx 16).2 4 : ℚ)
          z := (word16 (bus burst_tx 16).2 6 : ℚ) } ∧
      (MPU6000.measure bus now s).dev._gyro_report =
        { timestamp := now
          x := (word16 (bus burst_tx 16).2 10 : ℚ)
          y := (word16 (bus burst_tx 16).2 12 : ℚ)
          z := (word16 (bus burst_tx 16).2 14 : ℚ) }) := by
  refine ⟨rfl, ⟨rfl, rfl⟩, ?_⟩
  intro ha hg
  rw [(measure_reports bus now s).1, (measure_reports bus now s).2, ha, hg]
  simp only [mul_one, and_self]

/-- C12 at a concrete input: on a freshly constructed driver, whose scales
are 1, the burst that returns -EIO with the bytes 0..15 in the buffer at time
77 has the outcome of the burst that returns OK with the same bytes, and
leaves the words of the buffer in the gyroscope report. -/
theorem C12_measure_ignores_status_witness :
    ((MPU6000.ctor ⟨0⟩)._accel_range_scale = 1 ∧ (MPU6000.ctor ⟨0⟩)._gyro_range_scale = 1) ∧
    MPU6000.measure (constBus (- errno.EIO) (List.range 16)) 77 (MPU6000.ctor ⟨0⟩) =
      MPU6000.measure (constBus OK (List.range 16)) 77 (MPU6000.ctor ⟨0⟩) ∧
    (MPU6000.measure (constBus (- errno.EIO) (List.range 16)) 77
      (MPU6000.ctor ⟨0⟩)).dev._gyro_report =
      { timestamp := 77
        x := (word16 (List.range 16) 10 : ℚ)
        y := (word16 (List.range 16) 12 : ℚ)
        z := (word16 (List.range 16) 14 : ℚ) } :=
  ⟨⟨rfl, rfl⟩,
   (C12_measure_ignores_status (constBus OK (List.range 16)) (- errno.EIO) 77
      (MPU6000.ctor ⟨0⟩)).1,
   ((C12_measure_ignores_status (constBus (- errno.EIO) (List.range 16)) OK 77
      (MPU6000.ctor ⟨0⟩)).2.2 rfl rfl).2⟩

/-! ## Raw words in the reports -/

/-- A 16-bit member of the transfer buffer is at most 65535. -/
theorem word16_le (buf : List Nat) (i : Nat) : word16 buf i ≤ 65535 := by
  unfold word16 byteAt
  have h1 : buf.getD i 0 % 256 < 256 := Nat.mod_lt _ (by norm_num)
  have h2 : buf.getD (i + 1) 0 % 256 < 256 := Nat.mod_lt _ (by norm_num)
  omega

/-- The probe is a base-class call that assigns `_product` only. -/
theorem probe_keeps_private (bus : Bus) : base_keeps_private (MPU6000.probe bus) := by
  intro s
  exact ⟨(MPU6000.read_reg bus MPUREG_PRODUCT_ID).1, by rw [probe_eq]⟩

/-- No request on the accelerometer node changes a range scale. -/
theorem ioctl_scales (P : Platform) (s : MPU6000) (cmd : Cmd) (arg : Nat) :
    (MPU6000.ioctl P s cmd arg).dev._accel_range_scale = s._accel_range_scale ∧
    (MPU6000.ioctl P s cmd arg).dev._gyro_range_scale = s._gyro_range_scale := by
  cases cmd <;> simp only [MPU6000.ioctl, MPU6000.set_range, and_self]
  split
  · exact ⟨rfl, rfl⟩
  · split
    · exact ⟨rfl, rfl⟩
    · split
      · exact ⟨rfl, rfl⟩
      · split <;> exact ⟨rfl, rfl⟩

/-- No request on the gyroscope node changes a range scale. -/
theorem gyro_ioctl_scales (P : Platform) (s : MPU6000) (cmd : Cmd) (arg : Nat) :
    (MPU6000.gyro_ioctl P s cmd arg).dev._accel_range_scale = s._accel_range_scale ∧
    (MPU6000.gyro_ioctl P s cmd arg).dev._gyro_range_scale = s._gyro_range_scale := by
  cases cmd <;> simp only [MPU6000.gyro_ioctl, MPU6000.set_range, and_self]
  exact ioctl_scales P s Cmd.ACCELIOCSPOLLRATE arg

/-- A measurement on a driver whose range scales are 1 leaves the raw words
in the reports. -/
theorem measure_raw_words (bus : Bus) (now : Nat) (s : MPU6000)
    (ha : s._accel_range_scale = 1) (hg : s._gyro_range_scale = 1) :
    raw_words_reported (MPU6000.measure bus now s).dev := by
  refine ⟨ha, hg, ?_, ?_, ?_, ?_, ?_, ?_⟩
  · exact ⟨word16 (bus burst_tx 16).2 2, word16_le _ _, by
      simp [MPU6000.measure, Report.ofBytes, burst_tx, ha]⟩
  · exact ⟨word16 (bus burst_tx 16).2 4, word16_le _ _, by
      simp [MPU6000.measure, Report.ofBytes, burst_tx, ha]⟩
  · exact ⟨word16 (bus burst_tx 16).2 6, word16_le _ _, by
      simp [MPU6000.measure, Report.ofBytes, burst_tx, ha]⟩
  · exact ⟨word16 (bus burst_tx 16).2 10, word16_le _ _, by
      simp [MPU6000.measure, Report.ofBytes, burst_tx, hg]⟩
  · exact ⟨word16 (bus burst_tx 16).2 12, word16_le _ _, by
      simp [MPU6000.measure, Report.ofBytes, burst_tx, hg]⟩
  · exact ⟨word16 (bus burst_tx 16).2 14, word16_le _ _, by
      simp [MPU6000.measure, Report.ofBytes, burst_tx, hg]⟩

/-- A driver record with the scales and reports of one that reports raw
words reports raw words. -/
theorem raw_words_of_same (s t : MPU6000) (h : raw_words_reported s)
    (h1 : t._accel_range_scale = s._accel_range_scale)
    (h2 : t._gyro_range_scale = s._gyro_range_scale)
    (h3 : t._accel_report = s._accel_report) (h4 : t._gyro_report = s._gyro_report) :
    raw_words_reported t := by
  unfold raw_words_reported at h ⊢
  rw [h1, h2, h3, h4]
  exact h

/-- One call into the driver keeps the scales at 1 and the components raw
words. -/
theorem apply_raw_words (P : Platform) (s : MPU6000) (op : Op)
    (h : raw_words_reported s) : raw_words_reported (op.apply P s) := by
  cases op with
  | measure bus now => exact measure_raw_words bus now s h.1 h.2.1
  | read bus now buffer buflen =>
    simp only [Op.apply, MPU6000.read]
    split
    · exact h
    · split
      · exact measure_raw_words bus now s h.1 h.2.1
      · exact h
  | gyro_read bus now buffer buflen =>
    simp only [Op.apply, MPU6000_gyro.read, MPU6000.gyro_read]
    split
    · exact h
    · split
      · exact measure_raw_words bus now s h.1 h.2.1
      · exact h
  | ioctl cmd arg =>
    exact raw_words_of_same s _ h (ioctl_scales P s cmd arg).1 (ioctl_scales P s cmd arg).2
      (ioctl_reports P s cmd arg).1 (ioctl_reports P s cmd arg).2
  | gyro_ioctl cmd arg =>
    exact raw_words_of_same s _ h (gyro_ioctl_scales P s cmd arg).1
      (gyro_ioctl_scales P s cmd arg).2 (gyro_ioctl_reports P s cmd arg).1
      (gyro_ioctl_reports P s cmd arg).2
  | open_first => exact h
  | close_last => exact h

/-- With a base-class call that assigns `_product` only, `init` keeps the
scales and the reports. -/
theorem init_raw_words (base : MPU6000 → Outcome Int) (adv : Topic → Int) (s : MPU6000)
    (hb : base_keeps_private base) (h : raw_words_reported s) :
    raw_words_reported (MPU6000.init base adv s).dev := by
  obtain ⟨p, hp⟩ := hb s
  by_cases hr : (base s).ret = OK
  · refine raw_words_of_same s _ h ?_ ?_ ?_ ?_ <;>
      simp only [MPU6000.init, hr, ne_eq, not_true_eq_false, if_false, hp]
  · rw [init_of_base_failed base adv s hr, hp]
    exact h

/-- Every reachable driver record has both scales at 1 and raw words in its
reports. -/
theorem reachable_raw_words (P : Platform) (s : MPU6000) (h : Reachable P s) :
    raw_words_reported s := by
  induction h with
  | ctor call0 =>
    exact ⟨rfl, rfl, ⟨0, by norm_num, by simp [MPU6000.ctor]⟩,
      ⟨0, by norm_num, by simp [MPU6000.ctor]⟩, ⟨0, by norm_num, by simp [MPU6000.ctor]⟩,
      ⟨0, by norm_num, by simp [MPU6000.ctor]⟩, ⟨0, by norm_num, by simp [MPU6000.ctor]⟩,
      ⟨0, by norm_num, by simp [MPU6000.ctor]⟩⟩
  | init base adv s hb _ ih => exact init_raw_words base adv s hb ih
  | op s o _ ih => exact apply_raw_words P s o ih

/-- C13: in every state reachable from construction through `init` and any
sequence of ticks, reads and requests on either node (the range and scale
controls included), both range scales are 1 and every stored report
component is a whole number between 0 and 65535; and a measurement from such
a state sets each of the three acceleration and three angular-rate
components to the 16-bit word at its place in the transfer buffer, read as an
unsigned number in host order (low byte first, no swap, no sign conversion,
no per-axis offset or scale), so each lies between 0 and 65535. -/
theorem C13_raw_words_reported (P : Platform) (s : MPU6000) (h : Reachable P s)
    (bus : Bus) (now : Nat) :
    (s._accel_range_scale = 1 ∧ s._gyro_range_scale = 1) ∧
    raw_words_reported s ∧
    ((MPU6000.measure bus now s).dev._accel_report.x = (word16 (bus burst_tx 16).2 2 : ℚ) ∧
      (MPU6000.measure bus now s).dev._accel_report.y = (word16 (bus burst_tx 16).2 4 : ℚ) ∧
      (MPU6000.measure bus now s).dev._accel_report.z = (word16 (bus burst_tx 16).2 6 : ℚ) ∧
      (MPU6000.measure bus now s).dev._gyro_report.x = (word16 (bus burst_tx 16).2 10 : ℚ) ∧
      (MPU6000.measure bus now s).dev._gyro_report.y = (word16 (bus burst_tx 16).2 12 : ℚ) ∧
      (MPU6000.measure bus now s).dev._gyro_report.z =
        (word16 (bus burst_tx 16).2 14 : ℚ)) ∧
    (∀ i : Nat, word16 (bus burst_tx 16).2 i =
        byteAt (bus burst_tx 16).2 i + 256 * byteAt (bus burst_tx 16).2 (i + 1) ∧
      word16 (bus burst_tx 16).2 i ≤ 65535) ∧
    ((0 ≤ (MPU6000.measure bus now s).dev._accel_report.x ∧
        (MPU6000.measure bus now s).dev._accel_report.x ≤ 65535) ∧
      (0 ≤ (MPU6000.measure bus now s).dev._accel_report.y ∧
        (MPU6000.measure bus now s).dev._accel_report.y ≤ 65535) ∧
      (0 ≤ (MPU6000.measure bus now s).dev._accel_report.z ∧
        (MPU6000.measure bus now s).dev._accel_report.z ≤ 65535) ∧
      (0 ≤ (MPU6000.measure bus now s).dev._gyro_report.x ∧
        (MPU6000.measure bus now s).dev._gyro_report.x ≤ 65535) ∧
      (0 ≤ (MPU6000.measure bus now s).dev._gyro_report.y ∧
        (MPU6000.measure bus now s).dev._gyro_report.y ≤ 65535) ∧
      (0 ≤ (MPU6000.measure bus now s).dev._gyro_report.z ∧
        (MPU6000.measure bus now s).dev._gyro_report.z ≤ 65535)) := by
  have hinv := reachable_raw_words P s h
  have ha := hinv.1
  have hg := hinv.2.1
  have hm := measure_reports bus now s
  have hx : ∀ i : Nat, (0 : ℚ) ≤ (word16 (bus burst_tx 16).2 i : ℚ) ∧
      (word16 (bus burst_tx 16).2 i : ℚ) ≤ 65535 := by
    intro i
    have hle := word16_le (bus burst_tx 16).2 i
    exact ⟨Nat.cast_nonneg _, by exact_mod_cast hle⟩
  have e1 : (MPU6000.measure bus now s).dev._accel_report.x =
      (word16 (bus burst_tx 16).2 2 : ℚ) := by rw [hm.1, ha]; simp only [mul_one]
  have e2 : (MPU6000.measure bus now s).dev._accel_report.y =
      (word16 (bus burst_tx 16).2 4 : ℚ) := by rw [hm.1, ha]; simp only [mul_one]
  have e3 : (MPU6000.measure bus now s).dev._accel_report.z =
      (word16 (bus burst_tx 16).2 6 : ℚ) := by rw [hm.1, ha]; simp only [mul_one]
  have e4 : (MPU6000.measure bus now s).dev._gyro_report.x =
      (word16 (bus burst_tx 16).2 10 : ℚ) := by rw [hm.2, hg]; simp only [mul_one]
  have e5 : (MPU6000.measure bus now s).dev._gyro_report.y =
      (word16 (bus burst_tx 16).2 12 : ℚ) := by rw [hm.2, hg]; simp only [mul_one]
  have e6 : (MPU6000.measure bus now s).dev._gyro_report.z =
      (word16 (bus burst_tx 16).2 14 : ℚ) := by rw [hm.2, hg]; simp only [mul_one]
  refine ⟨⟨ha, hg⟩, hinv, ⟨e1, e2, e3, e4, e5, e6⟩, fun i => ⟨rfl, word16_le _ i⟩, ?_⟩
  rw [e1, e2, e3, e4, e5, e6]
  exact ⟨hx 2, hx 4, hx 6, hx 10, hx 12, hx 14⟩

/-- C13 at a concrete input: the driver constructed, initialised on a chip
with code 0x58 and sent a range request of 16 g is reachable, its scales are
1, and a measurement on it with the bytes 0..15 in the buffer reports the
acceleration x word 2 + 256 * 3 = 770. -/
theorem C13_raw_words_reported_witness :
    Reachable samplePlatform sampleReached ∧
    sampleReached._accel_range_scale = 1 ∧
    (MPU6000.measure (constBus OK (List.range 16)) 77 sampleReached).dev._accel_report.x =
      770 := by
  have hr : Reachable samplePlatform sampleReached :=
    Reachable.op _ _ (Reachable.init _ _ _ (probe_keeps_private _) (Reachable.ctor ⟨0⟩))
  have h := C13_raw_words_reported samplePlatform sampleReached hr
    (constBus OK (List.range 16)) 77
  refine ⟨hr, h.1.1, ?_⟩
  rw [h.2.2.1.1]
  simp [constBus, word16, byteAt]
